import Mathlib

/-!
Verification of the altary-mcp-server repository (src/altary_mcp/config.py,
src/altary_mcp/client.py, src/altary_mcp/server.py) against its
natural-language specification.

The Python code is shallowly embedded: JSON values become an inductive type,
the mutable configuration object (with its aliased nested `auth` dict) becomes
an explicit state record over a reference heap, exceptions become
`Except String`, and the callback-auth coordinator's polling loop becomes a
fuel-indexed recursion over an arrival schedule.
-/

namespace Altary

/-- Model of a decoded JSON value (`json.load` result).  Numbers are modelled
as integers; none of the verified properties depends on float payloads. -/
inductive Json where
  | null
  | bool (b : Bool)
  | num (n : Int)
  | str (s : String)
  | arr (elems : List Json)
  | obj (entries : List (String × Json))

/-- Key lookup in a JSON object, i.e. Python `d.get(k)` / `k in d` on the
entry list of an object (first match). -/
def lookupJ : List (String × Json) → String → Option Json
  | [], _ => none
  | (k, v) :: rest, key => if k == key then some v else lookupJ rest key

/-- Python truthiness of an optional string: `None` and `""` are falsy
(`if token:` in the source). -/
def truthyS : Option String → Bool
  | none => false
  | some s => !(s == "")

/-- Python type name of a decoded JSON value, used in the
`予期しないレスポンス形式` message (the source interpolates `type(x)`;
we render just the bare type name). -/
def pyTypeName : Json → String
  | .null => "NoneType"
  | .bool _ => "bool"
  | .num _ => "int"
  | .str _ => "str"
  | .arr _ => "list"
  | .obj _ => "dict"

mutual
/-- Python `str()` of a decoded JSON value as interpolated into f-strings.
For strings this is the string itself (exactly what the source produces in
its error messages); for containers the rendering is a plain recursive
listing (the claims never exercise container-valued messages). -/
def pyStr : Json → String
  | .null => "None"
  | .bool true => "True"
  | .bool false => "False"
  | .num n => toString n
  | .str s => s
  | .arr xs => "[" ++ pyStrList xs ++ "]"
  | .obj kvs => "\x7b" ++ pyStrEntries kvs ++ "\x7d"

def pyStrList : List Json → String
  | [] => ""
  | [x] => pyStr x
  | x :: xs => pyStr x ++ ", " ++ pyStrList xs

def pyStrEntries : List (String × Json) → String
  | [] => ""
  | [(k, v)] => k ++ ": " ++ pyStr v
  | (k, v) :: kvs => k ++ ": " ++ pyStr v ++ ", " ++ pyStrEntries kvs
end

/-! ## Config Store: `config.py`

`AltaryConfig.default_config` (config.py lines 20-26) and
`AltaryConfig._load_config` (lines 30-41). -/

/-- `self.default_config` from `AltaryConfig.__init__`, as the JSON object
it denotes. -/
def default_config : List (String × Json) :=
  [("api_base_url", .str "https://altary.web-ts.dev"),
   ("auth", .obj [("token", .null), ("project_id", .null)])]

/-- The three relevant states of the persisted config file as seen by
`_load_config`: absent, present but not decodable (`json.JSONDecodeError`),
or decodable to a JSON value. -/
inductive StoredFile where
  | missing
  | malformed
  | jsonFile (j : Json)

/-- Python `{**a, **b}`: every key of `a`, overridden by `b` where `b` has
the key, followed by the keys only `b` has.  This is a *shallow*,
top-level-only merge, exactly as in the source. -/
def mergeDicts (a b : List (String × Json)) : List (String × Json) :=
  (a.map fun kv => match lookupJ b kv.1 with
    | some v => (kv.1, v)
    | none => kv) ++ b.filter fun kv => (lookupJ a kv.1).isNone

/-- `AltaryConfig._load_config` (config.py lines 30-41).  A missing file and
a decode/IO failure both yield `default_config.copy()`; a decoded JSON object
is merged shallowly over the defaults with `{**self.default_config, **config}`.
A decodable file whose top-level value is not an object makes the dict-splat
raise `TypeError`, which is not caught by the `(JSONDecodeError, IOError)`
handler. -/
def _load_config : StoredFile → Except String (List (String × Json))
  | .missing => .ok default_config
  | .malformed => .ok default_config
  | .jsonFile (.obj kvs) => .ok (mergeDicts default_config kvs)
  | .jsonFile j => .error ("TypeError: " ++ pyTypeName j ++ " is not a mapping")

/-- The key population the spec promises of a loaded configuration:
`api_base_url` at top level, and `token` / `project_id` inside the `auth`
object. -/
def hasRequiredKeys (c : List (String × Json)) : Bool :=
  (lookupJ c "api_base_url").isSome &&
  match lookupJ c "auth" with
  | some (.obj akvs) => (lookupJ akvs "token").isSome && (lookupJ akvs "project_id").isSome
  | _ => false

/-! ## Config Store: mutable object state

The claims about `clear_config`, the `auth_token` setter and
`validate_token` depend on Python reference semantics: `self.default_config`
and `self._config` are dicts whose `"auth"` values are *references* to auth
dicts, and `dict.copy()` copies only the top level.  We therefore model the
auth dicts on an explicit heap addressed by `Nat` references. -/

/-- Contents of one auth dict `{"token": ..., "project_id": ...}`.  The
modelled operations only ever store strings or `None` in these slots. -/
structure AuthCell where
  token : Option String
  project_id : Option String
deriving DecidableEq

/-- State of one `AltaryConfig` instance together with its persisted file.
`heap` maps references to auth dicts; `defaultAuthRef` is the reference held
by `self.default_config["auth"]` and `configAuthRef` the one held by
`self._config["auth"]` (they alias whenever `_load_config` or `clear_config`
copied the defaults shallowly).  `file` is the persisted `config.json`
content as the snapshot written by `save_config` (top-level URL plus the
auth dict contents at write time); `none` means not yet written. -/
structure ConfigState where
  heap : Nat → AuthCell
  defaultAuthRef : Nat
  configAuthRef : Nat
  api_base_url : String
  file : Option (String × AuthCell)

/-- Heap update: reference assignment `h[r] := c`. -/
def heapSet (h : Nat → AuthCell) (r : Nat) (c : AuthCell) : Nat → AuthCell :=
  fun r' => if r' = r then c else h r'

/-- The `auth_token` property getter: `self._config["auth"]["token"]`
(config.py line 59). -/
def ConfigState.authToken (s : ConfigState) : Option String :=
  (s.heap s.configAuthRef).token

/-- The `project_id` property getter: `self._config["auth"]["project_id"]`
(config.py line 70). -/
def ConfigState.projectId (s : ConfigState) : Option String :=
  (s.heap s.configAuthRef).project_id

/-- `save_config` (config.py lines 43-49): serialize the current `_config`
(following the auth reference) to the file.  The IOError branch re-raises;
persistence failures play no role in the verified claims, so the write is
modelled as succeeding. -/
def save_config (s : ConfigState) : ConfigState :=
  { s with file := some (s.api_base_url, s.heap s.configAuthRef) }

/-- The raw assignment `self.config._config["auth"]["token"] = t` performed
by `validate_token` (client.py lines 381 and 390): mutates the auth dict the
config currently references, **without** calling `save_config`. -/
def setTokenRaw (t : Option String) (s : ConfigState) : ConfigState :=
  let cell := { s.heap s.configAuthRef with token := t }
  { s with heap := heapSet s.heap s.configAuthRef cell }

/-- The `auth_token` property setter (config.py lines 61-65): mutate the
referenced auth dict, then persist. -/
def setAuthTokenProp (t : String) (s : ConfigState) : ConfigState :=
  save_config (setTokenRaw (some t) s)

/-- The `project_id` property setter (config.py lines 72-76). -/
def setProjectIdProp (pid : String) (s : ConfigState) : ConfigState :=
  let cell := { s.heap s.configAuthRef with project_id := some pid }
  save_config { s with heap := heapSet s.heap s.configAuthRef cell }

/-- `is_configured` (config.py line 80): `bool(self.auth_token and self.project_id)`. -/
def is_configured (s : ConfigState) : Bool :=
  truthyS s.authToken && truthyS s.projectId

/-- `clear_config` (config.py lines 82-85):
`self._config = self.default_config.copy()` — a *shallow* copy, so the new
`_config["auth"]` is the very same dict object as `default_config["auth"]` —
followed by `save_config`.  The default top-level URL is the literal from
`__init__` (it is never mutated anywhere in the source). -/
def clear_config (s : ConfigState) : ConfigState :=
  save_config { s with
    configAuthRef := s.defaultAuthRef,
    api_base_url := "https://altary.web-ts.dev" }

/-! ## API Client: `client.py` -/

/-- Outcome of the underlying `httpx` GET as `get_user_projects` observes
it: a transport failure (`httpx.RequestError`), or a response with a status
code and the result of `response.json()` (`.error` being the
`json` decode failure message). -/
inductive HttpResult where
  | requestError (msg : String)
  | response (status : Nat) (body : Except String Json)

/-- `AltaryClient.get_user_projects` (client.py lines 26-78), as a function
of the auth token currently visible in the configuration and the HTTP
outcome.  Exceptions are `.error` values carrying the raised message:

* missing/empty token → `get_auth_headers` raises before the `try`;
* transport error → `ネットワークエラー`;
* non-2xx status → 401/403 specific messages, otherwise a message derived
  from the error body (`raise_for_status` raises for any non-success
  status);
* 2xx with undecodable body → the `JSONDecodeError` falls into the generic
  `except Exception` branch which wraps it as `データ処理エラー`;
* 2xx decoded: dict with `projects` key → that value; dict with `error` or
  `message` key → `APIエラー` (re-raised unchanged by the generic branch
  because the message contains the marker); any other dict → wrapped in a
  one-element list; list → returned unchanged; any other value → the
  `予期しないレスポンス形式` exception, which the generic branch re-wraps
  as `データ処理エラー`. -/
def get_user_projects (tok : Option String) (r : HttpResult) : Except String Json :=
  if truthyS tok = false then .error "認証トークンが設定されていません"
  else match r with
  | .requestError m => .error ("ネットワークエラー: " ++ m)
  | .response status body =>
    if 200 ≤ status ∧ status ≤ 299 then
      match body with
      | .error m => .error ("データ処理エラー: " ++ m)
      | .ok j =>
        match j with
        | .obj kvs =>
          match lookupJ kvs "projects" with
          | some v => .ok v
          | none =>
            if (lookupJ kvs "error").isSome || (lookupJ kvs "message").isSome then
              .error ("APIエラー: " ++
                pyStr ((lookupJ kvs "message").getD ((lookupJ kvs "error").getD (.str "不明なエラー"))))
            else .ok (.arr [j])
        | .arr xs => .ok (.arr xs)
        | other => .error ("データ処理エラー: 予期しないレスポンス形式: <class " ++ pyTypeName other ++ ">")
    else if status == 401 then .error "認証に失敗しました。トークンを確認してください。"
    else if status == 403 then .error "アクセス権限がありません。"
    else
      let msg := match body with
        | .ok (.obj kvs) =>
          match lookupJ kvs "message" with
          | some v => pyStr v
          | none => "HTTP " ++ toString status
        | _ => "HTTP " ++ toString status
      .error ("プロジェクト取得に失敗しました: " ++ msg)

/-- `AltaryClient.validate_token` (client.py lines 369-390), parametrised by
the outcome `trial` of the inner `get_user_projects()` call (`.error` for
*any* exception the call raises).  The source reads the current token,
assigns the candidate directly into the auth dict (no save), runs the trial
call inside `try/except Exception`, and restores the original token in a
`finally` block — so the restoring assignment happens on the success, the
caught-exception and the propagating-exception paths alike. -/
def validate_token (trial : Except String Json) (t : String) (s : ConfigState) :
    Bool × ConfigState :=
  let original := s.authToken
  let s1 := setTokenRaw (some t) s
  let res := match trial with
    | .ok _ => true
    | .error _ => false
  let s2 := setTokenRaw original s1
  (res, s2)

/-! ## Local callback auth flow: `AltaryClient.start_callback_auth`
(client.py lines 162-367) -/

/-- The shared `auth_result = {"token": None, "error": None}` record
(client.py line 174). -/
structure AuthResult where
  token : Option String
  error : Option String
deriving DecidableEq

/-- `auth_result` as freshly created by `start_callback_auth`. -/
def emptyAuthResult : AuthResult := ⟨none, none⟩

/-- Which HTML page `handle_callback` answers with.  Page contents are
presentation only (explicitly out of the spec's scope); the three branches
are distinguished. -/
inductive Page where
  | authFailure
  | authSuccess
  | invalidData
deriving DecidableEq

/-- `handle_callback` (client.py lines 176-323), on the query parameters
`request.query.get('token')` / `request.query.get('error')` (`none` when
the parameter is absent, `some ""` when present with an empty value) and the
shared record.  The source dispatches on Python truthiness:
`if error: ... elif token: ... else: ...`; the `else` branch records the
fixed message `トークンが見つかりません`.  Nothing in the modelled body can
raise, so the surrounding `except Exception` (500 response) branch is
unreachable here. -/
def handle_callback (tokenParam errorParam : Option String) (auth_result : AuthResult) :
    AuthResult × Page :=
  if truthyS errorParam then
    ({ auth_result with error := errorParam }, .authFailure)
  else if truthyS tokenParam then
    ({ auth_result with token := tokenParam }, .authSuccess)
  else
    ({ auth_result with error := some "トークンが見つかりません" }, .invalidData)

/-- The break condition of the polling loop (client.py line 351):
`if auth_result["token"] or auth_result["error"]`. -/
def resultRecorded (ar : AuthResult) : Bool :=
  truthyS ar.token || truthyS ar.error

/-- The shared record as visible after `n` completed one-second sleeps,
given that the (single) callback request arrives during second `k` and
writes the record `ar` — i.e. the write is visible to polls with `n ≥ k`.
`arrival = none` means no callback ever arrives. -/
def recordedAt (arrival : Option (Nat × AuthResult)) (n : Nat) : AuthResult :=
  match arrival with
  | none => emptyAuthResult
  | some (k, ar) => if k ≤ n then ar else emptyAuthResult

/-- The polling loop `for _ in range(300): if recorded: break; sleep(1)`
(client.py lines 350-353).  `fuel` is the number of remaining iterations and
`n` the number of sleeps performed so far; the result is the number of
sleeps performed when the loop exits (by break or by exhausting the range).
Each iteration checks the record, then sleeps one second. -/
def pollLoopAux (arrival : Option (Nat × AuthResult)) : Nat → Nat → Nat
  | 0, n => n
  | fuel + 1, n =>
    if resultRecorded (recordedAt arrival n) then n
    else pollLoopAux arrival fuel (n + 1)

/-- How one invocation of `start_callback_auth` terminates. -/
inductive FlowResult where
  | ok (token : String)
  | authError (msg : String)
  | timeout (msg : String)
  | setupError (msg : String)
deriving DecidableEq

/-- Observable outcome of one `start_callback_auth` invocation:
its return/raise value, whether `runner.cleanup()` ran, whether the
listener was started, and how many poll sleeps the coordinator performed. -/
structure FlowRun where
  result : FlowResult
  cleaned : Bool
  listenerStarted : Bool
  sleeps : Nat
deriving DecidableEq

/-- The coordinator's resolution step (client.py lines 355-363), applied to
the shared record when the polling wait ends: a recorded error raises
`認証エラー: ...`, a recorded token is returned (after a cosmetic 3-second
delay), and otherwise the 5-minute timeout error is raised. -/
def resolveResult (ar : AuthResult) : FlowResult :=
  if truthyS ar.error then .authError ("認証エラー: " ++ ar.error.getD "")
  else if truthyS ar.token then .ok (ar.token.getD "")
  else .timeout "認証がタイムアウトしました（5分）。再度お試しください。"

/-- `start_callback_auth` (client.py lines 162-367).

`setupExn` models an exception raised while starting the listener
(`runner.setup()` / `site.start()`, lines 330-333): these calls happen
*before* the `try` whose `finally` performs `runner.cleanup()`, so such an
exception propagates without the cleanup running.  `arrival` is the callback
schedule: `some (k, tokenParam, errorParam)` means the browser hits
`/callback` with those query parameters during second `k`.

Inside the `try`: a browser-launch failure is caught and merely printed
(non-fatal, not modelled further); the coordinator polls the shared record
for up to 300 iterations; afterwards it raises `認証エラー: ...` if an error
was recorded, returns the token if one was recorded (after a cosmetic
3-second delay), and otherwise raises the 5-minute timeout error.  The
`finally` then runs `runner.cleanup()` on each of these paths. -/
def start_callback_auth (setupExn : Option String)
    (arrival : Option (Nat × Option String × Option String)) : FlowRun :=
  match setupExn with
  | some msg =>
    { result := .setupError msg, cleaned := false, listenerStarted := false, sleeps := 0 }
  | none =>
    let arrivalState : Option (Nat × AuthResult) :=
      arrival.map fun a => (a.1, (handle_callback a.2.1 a.2.2 emptyAuthResult).1)
    let n := pollLoopAux arrivalState 300 0
    let ar := recordedAt arrivalState n
    { result := resolveResult ar, cleaned := true, listenerStarted := true, sleeps := n }

/-! ## Tool handler: `handle_set_default_project` (server.py lines 474-515) -/

/-- Outcome kinds of `handle_set_default_project`.  The rendered Markdown
text is presentation (out of the spec's scope); the branches are
distinguished, with the caught-exception branch keeping its message. -/
inductive SetProjectOutcome where
  | noAuth
  | invalidFormat
  | notFound
  | projectSet
  | apiError (msg : String)
deriving DecidableEq

/-- One step of `any(p.get('report_rand') == project_id or p.get('id') ==
project_id for p in projects)` (server.py lines 492-495): a non-dict element
makes `p.get` raise `AttributeError`; for a dict, the comparison with the id
string is true only when the value is exactly that string. -/
def projectMatches (pid : String) : Json → Except String Bool
  | .obj kvs =>
    let keyIs := fun key => match lookupJ kvs key with
      | some (.str s) => s == pid
      | _ => false
    .ok (keyIs "report_rand" || keyIs "id")
  | p => .error ("AttributeError: " ++ pyTypeName p ++ " object has no attribute get")

/-- Short-circuiting `any` over the project list, propagating the first
element exception. -/
def anyProjectMatches (pid : String) : List Json → Except String Bool
  | [] => .ok false
  | p :: rest => do
    let b ← projectMatches pid p
    if b then pure true else anyProjectMatches pid rest

/-- Python `project_id.startswith("ALTR-")` (server.py line 483): the first
five characters are `ALTR-`. -/
def startsWithALTR (s : String) : Bool :=
  s.toList.take 5 == "ALTR-".toList

/-- `handle_set_default_project` (server.py lines 474-515), parametrised by
the outcome `api` of the `client.get_user_projects()` call it would make.
Returns the outcome, the configuration state after the handler, and whether
the remote existence check was reached (i.e. whether `get_user_projects`
was called).  Order in the source: missing-token guard, then the `ALTR-`
format check, then (inside `try/except`) the remote existence check, and
only then the `config.project_id` assignment.  Iterating a non-list
`projects` value also ends in the `except` branch. -/
def handle_set_default_project (api : Except String Json) (project_id : String)
    (s : ConfigState) : SetProjectOutcome × ConfigState × Bool :=
  if truthyS s.authToken = false then (.noAuth, s, false)
  else if startsWithALTR project_id = false then (.invalidFormat, s, false)
  else
    match api with
    | .error e => (.apiError ("プロジェクト設定に失敗しました: " ++ e), s, true)
    | .ok (.arr ps) =>
      match anyProjectMatches project_id ps with
      | .error e => (.apiError ("プロジェクト設定に失敗しました: " ++ e), s, true)
      | .ok true => (.projectSet, setProjectIdProp project_id s, true)
      | .ok false => (.notFound, s, true)
    | .ok other =>
      (.apiError ("プロジェクト設定に失敗しました: TypeError: " ++ pyTypeName other ++
        " is not iterable as a project list"), s, true)

/-! ## Shared lemmas about the polling loop and the callback flow -/

/-- With no callback arrival the polling loop consumes all its fuel, one
sleep per iteration. -/
theorem pollLoopAux_none (fuel : Nat) : ∀ n, pollLoopAux none fuel n = n + fuel := by
  induction fuel with
  | zero => intro n; rfl
  | succ f ih =>
    intro n
    have hrec : resultRecorded (recordedAt none n) = false := rfl
    simp only [pollLoopAux, hrec, Bool.false_eq_true, if_false, ih (n + 1)]
    omega

/-- With a recorded (truthy) result arriving at second `k`, the loop started
after `n ≤ k` sleeps exits after `min k (n + fuel)` sleeps: it breaks at the
first poll that sees the record, or runs out of fuel. -/
theorem pollLoopAux_arrival (k : Nat) (ar : AuthResult) (h : resultRecorded ar = true)
    (fuel : Nat) : ∀ n, n ≤ k → pollLoopAux (some (k, ar)) fuel n = min k (n + fuel) := by
  induction fuel with
  | zero => intro n hn; simp only [pollLoopAux]; omega
  | succ f ih =>
    intro n hn
    by_cases hk : k ≤ n
    · have hrec : recordedAt (some (k, ar)) n = ar := by simp [recordedAt, hk]
      simp only [pollLoopAux, hrec, h, if_true]
      omega
    · have hrec : recordedAt (some (k, ar)) n = emptyAuthResult := by
        simp only [recordedAt, if_neg hk]
      have hfalse : resultRecorded (recordedAt (some (k, ar)) n) = false := by
        rw [hrec]; rfl
      simp only [pollLoopAux, hfalse, Bool.false_eq_true, if_false, ih (n + 1) (by omega)]
      omega

/-- Every branch of `handle_callback` records a truthy token or error into
the shared record: the error branch stores the (truthy) error parameter,
the token branch the (truthy) token parameter, and the fallback branch the
non-empty fixed message. -/
theorem handle_callback_records (tp ep : Option String) :
    resultRecorded (handle_callback tp ep emptyAuthResult).1 = true := by
  unfold handle_callback
  by_cases he : truthyS ep = true
  · simp only [he, if_true]
    simp [resultRecorded, he]
  · by_cases ht : truthyS tp = true
    · simp only [he, ht, Bool.false_eq_true, if_false, if_true]
      simp [resultRecorded, ht, emptyAuthResult]
    · simp only [he, ht, Bool.false_eq_true, if_false]
      decide

/-- A flow whose listener starts and whose callback arrives during second
`k < 300` stops polling after exactly `k` sleeps and resolves the record the
callback wrote; the cleanup runs. -/
theorem start_callback_auth_arrival (tp ep : Option String) (k : Nat) (hk : k < 300) :
    start_callback_auth none (some (k, tp, ep)) =
      { result := resolveResult (handle_callback tp ep emptyAuthResult).1,
        cleaned := true, listenerStarted := true, sleeps := k } := by
  have hrec := handle_callback_records tp ep
  unfold start_callback_auth
  simp only [Option.map_some']
  have hp : pollLoopAux (some (k, (handle_callback tp ep emptyAuthResult).1)) 300 0 = k := by
    rw [pollLoopAux_arrival k _ hrec 300 0 (Nat.zero_le k)]
    omega
  rw [hp]
  have hat : recordedAt (some (k, (handle_callback tp ep emptyAuthResult).1)) k =
      (handle_callback tp ep emptyAuthResult).1 := by
    simp [recordedAt]
  rw [hat]

/-- A concrete configuration state with an auth token set, used by the
witness theorems. -/
def sampleConfigState : ConfigState :=
  { heap := fun _ => ⟨some "tok", none⟩, defaultAuthRef := 0, configAuthRef := 1,
    api_base_url := "https://altary.web-ts.dev", file := none }

/-! ## Claim theorems -/

/-- C1: for every token `t` and every outcome of the trial `listProjects`
call (success, API failure, or an exception raised inside the call), after
`validate_token(t)` returns, the stored auth token — both the in-memory
configuration field and the persisted configuration — equals what it was
immediately before the call; the `finally` block restores it on all exit
paths, and the direct dict assignment never persists. -/
theorem validate_token_restores_config (trial : Except String Json) (t : String)
    (s : ConfigState) :
    (validate_token trial t s).2.authToken = s.authToken ∧
    (validate_token trial t s).2.file = s.file := by
  constructor
  · simp [validate_token, setTokenRaw, heapSet, ConfigState.authToken]
  · rfl

/-- C8: `validate_token` always resolves to a boolean — `true` exactly when
the trial `get_user_projects` call returns, `false` when it raises any
exception, the `except Exception` branch absorbing every failure. -/
theorem validate_token_resolves_to_bool :
    (∀ (v : Json) (t : String) (s : ConfigState),
       (validate_token (.ok v) t s).1 = true) ∧
    (∀ (e : String) (t : String) (s : ConfigState),
       (validate_token (.error e) t s).1 = false) :=
  ⟨fun _ _ _ => rfl, fun _ _ _ => rfl⟩

/-- C7: after `clear()`, the live configuration's `auth` dict is the very
object held by `default_config` (shallow copy), so
`clear(); setAuthToken(t); clear()` leaves `auth_token` equal to `t`: the
write through the live configuration mutated the defaults, and the second
`clear()` reinstalls the mutated default auth dict instead of resetting the
token to `None`. -/
theorem clear_set_clear_keeps_token (s : ConfigState) (t : String) :
    (clear_config (setAuthTokenProp t (clear_config s))).authToken = some t ∧
    (clear_config (setAuthTokenProp t (clear_config s))).authToken ≠ none := by
  have h : (clear_config (setAuthTokenProp t (clear_config s))).authToken = some t := by
    simp [clear_config, setAuthTokenProp, setTokenRaw, save_config, heapSet,
      ConfigState.authToken]
  exact ⟨h, by rw [h]; exact Option.noConfusion⟩

/-- C10: loading a configuration file whose content is invalid JSON does
not raise — the `JSONDecodeError` is caught — and yields exactly the
default configuration, which has every required key populated. -/
theorem load_config_malformed_yields_defaults :
    _load_config .malformed = .ok default_config ∧
    hasRequiredKeys default_config = true :=
  ⟨rfl, rfl⟩

/-- C5 counterexample: a persisted file whose `auth` object lacks
`project_id` loads into a configuration whose `auth` object still lacks
`project_id` — the claimed deep default-merge does not happen, so the
required keys are not all populated. -/
theorem load_config_partial_auth_not_defaulted :
    _load_config (.jsonFile (.obj [("auth", .obj [("token", .str "T")])])) =
      .ok [("api_base_url", .str "https://altary.web-ts.dev"),
           ("auth", .obj [("token", .str "T")])] ∧
    hasRequiredKeys
      [("api_base_url", .str "https://altary.web-ts.dev"),
       ("auth", .obj [("token", .str "T")])] = false :=
  ⟨rfl, rfl⟩

/-- C5 amended: `load()` merges defaults under loaded values only at the
top level.  Whenever it returns (it raises on a decodable non-object file),
`api_base_url` and `auth` are present; but the `auth` value is either the
full default auth object (both `token` and `project_id` populated) — when
the stored file supplies no `auth` key — or *exactly the stored `auth`
value*, whose entries are only those the file supplied. -/
theorem load_config_top_level_merge (f : StoredFile) (c : List (String × Json))
    (h : _load_config f = .ok c) :
    (lookupJ c "api_base_url").isSome = true ∧
    ∃ a, lookupJ c "auth" = some a ∧
      (a = .obj [("token", .null), ("project_id", .null)] ∨
       ∃ kvs, f = .jsonFile (.obj kvs) ∧ lookupJ kvs "auth" = some a) := by
  cases f with
  | missing =>
    injection h with h'
    subst h'
    exact ⟨rfl, ⟨.obj [("token", .null), ("project_id", .null)], rfl, .inl rfl⟩⟩
  | malformed =>
    injection h with h'
    subst h'
    exact ⟨rfl, ⟨.obj [("token", .null), ("project_id", .null)], rfl, .inl rfl⟩⟩
  | jsonFile j =>
    cases j with
    | obj kvs =>
      injection h with h'
      subst h'
      constructor
      · cases hu : lookupJ kvs "api_base_url" <;>
          simp [mergeDicts, default_config, lookupJ, hu]
      · cases hv : lookupJ kvs "auth" with
        | some v =>
          refine ⟨v, ?_, .inr ⟨kvs, rfl, hv⟩⟩
          cases hu : lookupJ kvs "api_base_url" <;>
            simp [mergeDicts, default_config, lookupJ, hu, hv]
        | none =>
          refine ⟨.obj [("token", .null), ("project_id", .null)], ?_, .inl rfl⟩
          cases hu : lookupJ kvs "api_base_url" <;>
            simp [mergeDicts, default_config, lookupJ, hu, hv]
    | null => exact Except.noConfusion h
    | bool b => exact Except.noConfusion h
    | num n => exact Except.noConfusion h
    | str s => exact Except.noConfusion h
    | arr xs => exact Except.noConfusion h

/-- C5 witness: the amended theorem applied to a missing file, whose load
result is the full default configuration. -/
theorem load_config_top_level_merge_witness :
    (lookupJ default_config "api_base_url").isSome = true ∧
    ∃ a, lookupJ default_config "auth" = some a ∧
      (a = .obj [("token", .null), ("project_id", .null)] ∨
       ∃ kvs, StoredFile.missing = .jsonFile (.obj kvs) ∧ lookupJ kvs "auth" = some a) :=
  load_config_top_level_merge .missing default_config rfl

/-- C2 counterexample: a request carrying the `error` parameter with an
empty value (`/callback?error=`).  The parameter is present, but Python
truthiness sends the handler to the fallback branch: it records the fixed
no-token message instead of the (empty) error string, and the flow fails
with that message rather than with the supplied error value. -/
theorem callback_empty_error_param_not_recorded :
    (handle_callback none (some "") emptyAuthResult).1.error = some "トークンが見つかりません" ∧
    (handle_callback none (some "") emptyAuthResult).1.error ≠ some "" ∧
    (start_callback_auth none (some (0, none, some ""))).result =
      .authError "認証エラー: トークンが見つかりません" ∧
    (start_callback_auth none (some (0, none, some ""))).result ≠ .authError "認証エラー: " := by
  refine ⟨rfl, by decide, rfl, by decide⟩

/-- C2 amended: with parameter presence strengthened to Python truthiness —
if the `error` parameter carries a non-empty value, the handler records that
error string and the flow fails with it; if the `token` parameter carries a
non-empty value and `error` is absent or empty, the flow resolves with
exactly that token string; if neither parameter is present, the handler
records the failure message indicating that no token was found and the flow
fails with it. -/
theorem callback_param_dispatch (tp ep : Option String) :
    (∀ e, ep = some e → e ≠ "" →
       (handle_callback tp ep emptyAuthResult).1.error = some e ∧
       (start_callback_auth none (some (0, tp, ep))).result =
         .authError ("認証エラー: " ++ e)) ∧
    (∀ t, tp = some t → t ≠ "" → truthyS ep = false →
       (handle_callback tp ep emptyAuthResult).1.token = some t ∧
       (start_callback_auth none (some (0, tp, ep))).result = .ok t) ∧
    (tp = none → ep = none →
       (handle_callback tp ep emptyAuthResult).1.error = some "トークンが見つかりません" ∧
       (start_callback_auth none (some (0, tp, ep))).result =
         .authError "認証エラー: トークンが見つかりません") := by
  refine ⟨?_, ?_, ?_⟩
  · intro e he hne
    subst he
    have htr : truthyS (some e) = true := by simp [truthyS, hne]
    constructor
    · simp [handle_callback, htr]
    · rw [start_callback_auth_arrival tp (some e) 0 (by omega)]
      simp [handle_callback, htr, resolveResult]
  · intro t ht hne hep
    subst ht
    have htr : truthyS (some t) = true := by simp [truthyS, hne]
    have hcb : (handle_callback (some t) ep emptyAuthResult).1 = ⟨some t, none⟩ := by
      simp [handle_callback, hep, htr, emptyAuthResult]
    constructor
    · rw [hcb]
    · rw [start_callback_auth_arrival (some t) ep 0 (by omega)]
      simp [hcb, resolveResult, truthyS, hne]
  · intro h1 h2
    subst h1
    subst h2
    refine ⟨rfl, ?_⟩
    rw [start_callback_auth_arrival none none 0 (by omega)]
    decide

/-- C2 witness: the amended theorem at the three concrete requests
`/callback?error=denied`, `/callback?token=ABC` and a parameterless
`/callback`. -/
theorem callback_param_dispatch_witness :
    ((handle_callback none (some "denied") emptyAuthResult).1.error = some "denied" ∧
     (start_callback_auth none (some (0, none, some "denied"))).result =
       .authError "認証エラー: denied") ∧
    ((handle_callback (some "ABC") none emptyAuthResult).1.token = some "ABC" ∧
     (start_callback_auth none (some (0, some "ABC", none))).result = .ok "ABC") ∧
    ((handle_callback none none emptyAuthResult).1.error = some "トークンが見つかりません" ∧
     (start_callback_auth none (some (0, none, none))).result =
       .authError "認証エラー: トークンが見つかりません") :=
  ⟨(callback_param_dispatch none (some "denied")).1 "denied" rfl (by decide),
   (callback_param_dispatch (some "ABC") none).2.1 "ABC" rfl (by decide) rfl,
   (callback_param_dispatch none none).2.2 rfl rfl⟩

set_option maxRecDepth 4000 in
/-- C3: if no callback ever arrives, the coordinator performs all 300
one-second polls and the flow fails with the 5-minute timeout error; and a
callback recorded during second `k < 300` stops the polling after exactly
`k` sleeps. -/
theorem coordinator_polls_and_times_out
    (arrival : Option (Nat × Option String × Option String)) :
    (arrival = none → (start_callback_auth none arrival).sleeps = 300 ∧
       (start_callback_auth none arrival).result =
         .timeout "認証がタイムアウトしました（5分）。再度お試しください。") ∧
    (∀ k tp ep, arrival = some (k, tp, ep) → k < 300 →
       (start_callback_auth none arrival).sleeps = k) := by
  constructor
  · intro h
    subst h
    constructor
    · show pollLoopAux none 300 0 = 300
      rw [pollLoopAux_none]
    · decide
  · intro k tp ep h hk
    subst h
    rw [start_callback_auth_arrival tp ep k hk]

/-- C3 witness: with no arrival the flow sleeps 300 times and times out;
with a callback in second 5 it stops polling after 5 sleeps. -/
theorem coordinator_polls_and_times_out_witness :
    ((start_callback_auth none none).sleeps = 300 ∧
     (start_callback_auth none none).result =
       .timeout "認証がタイムアウトしました（5分）。再度お試しください。") ∧
    (start_callback_auth none (some (5, some "T", none))).sleeps = 5 :=
  ⟨(coordinator_polls_and_times_out none).1 rfl,
   (coordinator_polls_and_times_out (some (5, some "T", none))).2 5 (some "T") none rfl
     (by omega)⟩

/-- C4 counterexample: an exception raised while starting the listener
(`runner.setup()` / `site.start()` precede the `try`) propagates as-is and
`runner.cleanup()` is never executed — the teardown is not guaranteed on
this exit path, contrary to the claim. -/
theorem setup_exception_skips_cleanup :
    (start_callback_auth (some "OSError: [Errno 98] Address already in use") none).cleaned
      = false ∧
    (start_callback_auth (some "OSError: [Errno 98] Address already in use") none).result
      = .setupError "OSError: [Errno 98] Address already in use" :=
  ⟨rfl, rfl⟩

/-- C4 amended: the listener cleanup executes exactly on the exit paths
entered after the listener started — token resolution, recorded callback
error, and timeout, for every callback schedule — while an exception during
listener setup itself propagates without the cleanup running. -/
theorem cleanup_iff_listener_started (setupExn : Option String)
    (arrival : Option (Nat × Option String × Option String)) :
    (start_callback_auth setupExn arrival).cleaned = setupExn.isNone ∧
    (start_callback_auth setupExn arrival).listenerStarted = setupExn.isNone := by
  cases setupExn <;> exact ⟨rfl, rfl⟩

/-- C6 counterexample: a successfully decoded 2xx object payload carrying a
`message` key (and no `projects` key) is not wrapped into a one-element
list; `get_user_projects` raises an `APIエラー` exception instead. -/
theorem message_payload_not_wrapped :
    get_user_projects (some "tok")
        (.response 200 (.ok (.obj [("message", .str "oops")]))) =
      .error "APIエラー: oops" ∧
    get_user_projects (some "tok")
        (.response 200 (.ok (.obj [("message", .str "oops")]))) ≠
      .ok (.arr [.obj [("message", .str "oops")]]) :=
  ⟨rfl, fun h => Except.noConfusion h⟩

/-- C6 amended: for every successfully decoded 2xx payload (with an auth
token configured), a bare list is returned unchanged, an object with a
`projects` key yields that key's value, and any other object is wrapped
into a one-element list *unless* it carries an `error` or `message` key, in
which case the call fails with an API-error message. -/
theorem get_user_projects_normalizes (tok : Option String) (status : Nat) (j : Json)
    (htok : truthyS tok = true) (h1 : 200 ≤ status) (h2 : status ≤ 299) :
    (∀ xs, j = .arr xs → get_user_projects tok (.response status (.ok j)) = .ok (.arr xs)) ∧
    (∀ kvs v, j = .obj kvs → lookupJ kvs "projects" = some v →
       get_user_projects tok (.response status (.ok j)) = .ok v) ∧
    (∀ kvs, j = .obj kvs → lookupJ kvs "projects" = none →
       (lookupJ kvs "error").isSome = false → (lookupJ kvs "message").isSome = false →
       get_user_projects tok (.response status (.ok j)) = .ok (.arr [j])) := by
  refine ⟨?_, ?_, ?_⟩
  · intro xs hj
    subst hj
    simp [get_user_projects, htok, h1, h2]
  · intro kvs v hj hp
    subst hj
    simp [get_user_projects, htok, h1, h2, hp]
  · intro kvs hj hp he hm
    subst hj
    simp [get_user_projects, htok, h1, h2, hp, he, hm]

/-- C6 witness: the amended theorem at the three payload shapes of the
spec's end-to-end example — a bare list, an object with a projects key, and
a bare single object. -/
theorem get_user_projects_normalizes_witness :
    get_user_projects (some "tok")
        (.response 200 (.ok (.arr [.obj [("id", .str "p1")]]))) =
      .ok (.arr [.obj [("id", .str "p1")]]) ∧
    get_user_projects (some "tok")
        (.response 200 (.ok (.obj [("projects", .arr [.obj [("id", .str "p1")]])]))) =
      .ok (.arr [.obj [("id", .str "p1")]]) ∧
    get_user_projects (some "tok")
        (.response 200 (.ok (.obj [("id", .str "p1")]))) =
      .ok (.arr [.obj [("id", .str "p1")]]) :=
  ⟨(get_user_projects_normalizes (some "tok") 200 (.arr [.obj [("id", .str "p1")]])
      rfl (by omega) (by omega)).1 _ rfl,
   (get_user_projects_normalizes (some "tok") 200
      (.obj [("projects", .arr [.obj [("id", .str "p1")]])])
      rfl (by omega) (by omega)).2.1 _ _ rfl rfl,
   (get_user_projects_normalizes (some "tok") 200 (.obj [("id", .str "p1")])
      rfl (by omega) (by omega)).2.2 _ rfl rfl rfl rfl⟩

/-- C9: with an auth token configured, a project id not starting with
`ALTR-` is rejected with the invalid-format outcome before the remote
existence check is reached (whatever that check would return), and the
configuration — in particular the configured `project_id` — is left
unchanged. -/
theorem set_default_project_rejects_bad_format (api : Except String Json)
    (project_id : String) (s : ConfigState)
    (htok : truthyS s.authToken = true) (hfmt : startsWithALTR project_id = false) :
    handle_set_default_project api project_id s = (.invalidFormat, s, false) := by
  simp [handle_set_default_project, htok, hfmt]

/-- C9 witness: the rejection at the concrete id `PROJ-1` with a token
configured, regardless of the remote call failing. -/
theorem set_default_project_rejects_bad_format_witness :
    handle_set_default_project (.error "x") "PROJ-1" sampleConfigState =
      (.invalidFormat, sampleConfigState, false) :=
  set_default_project_rejects_bad_format (.error "x") "PROJ-1" sampleConfigState
    (by decide) (by decide)

end Altary
